import Mathlib

/-!
Verification of the loki-reader-core client library.

This file gives a shallow embedding of the pure logic of the library:
the severity-tier regex builder, the metric-query classifier, the
label-discovery cache, the query orchestration (endpoint and time-window
selection) and the response normalization / serialization models, together
with theorems checking the stated properties.

Conventions of the embedding:
  * Python numbers are modelled exactly as rationals; `float` rounding is
    not modelled (the values exercised by the properties are all exactly
    representable).
  * Fallible Python code (exceptions) is modelled with `Option` / `Except`.
  * The label-values HTTP collaborator is modelled as a pure function
    `String → List String`; probe lists record the collaborator calls a
    label-discovery operation issues, in order.
  * Wall-clock time (`now_ns`) is passed explicitly as a parameter.
-/

namespace LokiReader

/-- From utils.py: nanoseconds per second. -/
def NANOSECONDS_PER_SECOND : ℤ := 1000000000

/-- From utils.py: nanoseconds per minute. -/
def NANOSECONDS_PER_MINUTE : ℤ := NANOSECONDS_PER_SECOND * 60

/-- From utils.py: nanoseconds per hour. -/
def NANOSECONDS_PER_HOUR : ℤ := NANOSECONDS_PER_MINUTE * 60

/-- Truncation toward zero, the behaviour of the Python builtin int() on a
number. -/
def pyTruncInt (q : ℚ) : ℤ :=
  if q < 0 then ⌈q⌉ else ⌊q⌋

/-- The whitespace characters removed by the Python str.strip(). -/
def pySpace (c : Char) : Bool :=
  c = ' ' || c = '\t' || c = '\n' || c = '\r' || c = '\x0b' || c = '\x0c'

/-- Python str.strip(): remove leading and trailing whitespace. -/
def pyStrip (s : String) : String :=
  ⟨((s.data.dropWhile pySpace).reverse.dropWhile pySpace).reverse⟩

/-- Python str.lower() on one character (ASCII range, the only
characters the library compares). -/
def pyLowerChar (c : Char) : Char :=
  if 65 ≤ c.toNat ∧ c.toNat ≤ 90 then Char.ofNat (c.toNat + 32) else c

/-- Python str.lower() (ASCII range). -/
def pyLower (s : String) : String :=
  ⟨s.data.map pyLowerChar⟩

/-- Character-list version of Python str.startswith(). -/
def listStarts : List Char → List Char → Bool
  | _, [] => true
  | [], _ :: _ => false
  | c :: cs, p :: ps => c = p && listStarts cs ps

/-- Python str.startswith(). -/
def pyStartsWith (s pat : String) : Bool :=
  listStarts s.data pat.data

/-- Python sep.join(xs). -/
def joinSep (sep : String) : List String → String
  | [] => ""
  | [x] => x
  | x :: xs => x ++ sep ++ joinSep sep xs

/-- The Python builtin round() on a number: round half to even. -/
def pyRound (q : ℚ) : ℤ :=
  let f := q - ⌊q⌋
  if f < 1 / 2 then ⌊q⌋
  else if 1 / 2 < f then ⌊q⌋ + 1
  else if ⌊q⌋ % 2 = 0 then ⌊q⌋ else ⌊q⌋ + 1

/-- JSON values, as delivered by the upstream API and produced by the
dictionary serializers. Numbers are exact rationals. -/
inductive Json where
  | null : Json
  | bool (b : Bool) : Json
  | num (q : ℚ) : Json
  | str (s : String) : Json
  | arr (xs : List Json) : Json
  | obj (kvs : List (String × Json)) : Json

/-- Python dict lookup (dict.get / dict[k]) on an association list:
the first binding for the key, if any. -/
def jget : List (String × Json) → String → Option Json
  | [], _ => none
  | kv :: rest, k => if kv.1 = k then some kv.2 else jget rest k

/-- Python truthiness of a JSON value (None, False, 0, empty string /
list / dict are falsy). -/
def jsonTruthy : Json → Bool
  | .null => false
  | .bool b => b
  | .num q => q ≠ 0
  | .str s => s ≠ ""
  | .arr xs => !xs.isEmpty
  | .obj kvs => !kvs.isEmpty

/-- Python membership test (the operator in) on a list of strings. -/
def listHas : List String → String → Bool
  | [], _ => false
  | x :: xs, v => (x = v) || listHas xs v

/-- Python truthiness of a list (non-empty). -/
def listNonempty : List String → Bool
  | [] => false
  | _ :: _ => true

/-- Numeric value of a decimal digit character. -/
def digitVal (c : Char) : Option ℕ :=
  if c.isDigit then some (c.toNat - 48) else none

/-- Accumulate decimal digits left to right; fails on a non-digit. -/
def parseDigitsAux : List Char → ℕ → Option ℕ
  | [], acc => some acc
  | c :: cs, acc =>
    match digitVal c with
    | some d => parseDigitsAux cs (acc * 10 + d)
    | none => none

/-- Parse a non-empty all-digit string as a natural number. -/
def parseDigits (cs : List Char) : Option ℕ :=
  if cs = [] then none else parseDigitsAux cs 0

/-- Value of an all-digit character list (assumed valid). -/
def digitsVal (cs : List Char) : ℕ :=
  cs.foldl (fun acc c => acc * 10 + (c.toNat - 48)) 0

/-- Modelled from the Python builtin int() applied to a string: optional
sign, then decimal digits, surrounding whitespace allowed. -/
def pyIntOfString (s : String) : Option ℤ :=
  match (pyStrip s).data with
  | [] => none
  | c :: cs =>
    if c = '-' then (parseDigits cs).map (fun n => -(n : ℤ))
    else if c = '+' then (parseDigits cs).map (fun n => (n : ℤ))
    else (parseDigits (c :: cs)).map (fun n => (n : ℤ))

/-- Unsigned plain decimal literal ("42", "1.5", "1.", ".5") as an exact
rational. -/
def parseUnsignedDec (cs : List Char) : Option ℚ :=
  let ip := cs.takeWhile (fun c => c ≠ '.')
  let rest := cs.dropWhile (fun c => c ≠ '.')
  match rest with
  | [] => (parseDigits ip).map (fun n => (n : ℚ))
  | _ :: fp =>
    if fp.contains '.' then none
    else if ip.all Char.isDigit && fp.all Char.isDigit && !(ip.isEmpty && fp.isEmpty)
    then some ((digitsVal ip : ℚ) + (digitsVal fp : ℚ) / (10 : ℚ) ^ fp.length)
    else none

/-- Modelled from the Python builtin float() applied to a string,
restricted to plain decimal literals (the forms the claims exercise);
exponent / inf / nan forms are outside the model and map to none. -/
def pyFloatOfString (s : String) : Option ℚ :=
  match (pyStrip s).data with
  | [] => none
  | c :: cs =>
    if c = '-' then (parseUnsignedDec cs).map (fun q => -q)
    else if c = '+' then parseUnsignedDec cs
    else parseUnsignedDec (c :: cs)

/-- The Python builtin int() on a JSON value. -/
def pyInt : Json → Option ℤ
  | .num q => some (pyTruncInt q)
  | .str s => pyIntOfString s
  | .bool b => some (if b then 1 else 0)
  | _ => none

/-- The Python builtin float() on a JSON value. -/
def pyFloat : Json → Option ℚ
  | .num q => some q
  | .str s => pyFloatOfString s
  | .bool b => some (if b then 1 else 0)
  | _ => none

/-- A Python list comprehension over a fallible element parser: the
whole list parses when every element does. -/
def optMapList {α β : Type} (f : α → Option β) : List α → Option (List β)
  | [] => some []
  | x :: xs => do
    let y ← f x
    let ys ← optMapList f xs
    some (y :: ys)

/-- From log_entry.py: a single log line. -/
structure LogEntry where
  timestamp : ℤ
  message : String
deriving DecidableEq

/-- LogEntry.to_dict. -/
def LogEntry.to_dict (e : LogEntry) : Json :=
  .obj [("timestamp", .num e.timestamp), ("message", .str e.message)]

/-- LogEntry.from_dict: int(data["timestamp"]) and data["message"]
(the message must be a string in this typed model). -/
def LogEntry.from_dict (data : Json) : Option LogEntry :=
  match data with
  | .obj kvs => do
    let t ← jget kvs "timestamp"
    let ti ← pyInt t
    match jget kvs "message" with
    | some (.str m) => some ⟨ti, m⟩
    | _ => none
  | _ => none

/-- LogEntry.from_loki_value: int(value[0]) and value[1]. -/
def LogEntry.from_loki_value (value : Json) : Option LogEntry :=
  match value with
  | .arr (t :: m :: _) => do
    let ti ← pyInt t
    match m with
    | .str msg => some ⟨ti, msg⟩
    | _ => none
  | _ => none

/-- Label maps (dict[str, str]) serialized into a JSON object. -/
def labelsToJson (l : List (String × String)) : Json :=
  .obj (l.map (fun kv => (kv.1, .str kv.2)))

/-- Label maps recovered from a JSON object; every value must be a
string in this typed model. -/
def jsonToLabels : Json → Option (List (String × String))
  | .obj kvs =>
    optMapList (fun kv =>
      match kv.2 with
      | .str s => some (kv.1, s)
      | _ => none) kvs
  | _ => none

/-- From log_stream.py: a stream of log entries sharing labels. -/
structure LogStream where
  labels : List (String × String)
  entries : List LogEntry
deriving DecidableEq

/-- LogStream.to_dict. -/
def LogStream.to_dict (s : LogStream) : Json :=
  .obj [("labels", labelsToJson s.labels),
        ("entries", .arr (s.entries.map LogEntry.to_dict))]

/-- LogStream.from_dict: data["labels"], data.get("entries", []). -/
def LogStream.from_dict (data : Json) : Option LogStream :=
  match data with
  | .obj kvs => do
    let lj ← jget kvs "labels"
    let labels ← jsonToLabels lj
    let ej ← match jget kvs "entries" with
      | none => some ([] : List Json)
      | some (.arr xs) => some xs
      | some _ => none
    let entries ← optMapList LogEntry.from_dict ej
    some ⟨labels, entries⟩
  | _ => none

/-- LogStream.from_loki_stream: stream_data.get("stream", {}) and
stream_data.get("values", []). -/
def LogStream.from_loki_stream (stream_data : Json) : Option LogStream :=
  match stream_data with
  | .obj kvs => do
    let labels ← match jget kvs "stream" with
      | none => some ([] : List (String × String))
      | some j => jsonToLabels j
    let vj ← match jget kvs "values" with
      | none => some ([] : List Json)
      | some (.arr xs) => some xs
      | some _ => none
    let entries ← optMapList LogEntry.from_loki_value vj
    some ⟨labels, entries⟩
  | _ => none

/-- From metric_sample.py: a single numeric datapoint. -/
structure MetricSample where
  timestamp : ℤ
  value : ℚ
deriving DecidableEq

/-- MetricSample.to_dict. -/
def MetricSample.to_dict (s : MetricSample) : Json :=
  .obj [("timestamp", .num s.timestamp), ("value", .num s.value)]

/-- MetricSample.from_dict: int(data["timestamp"]), float(data["value"]). -/
def MetricSample.from_dict (data : Json) : Option MetricSample :=
  match data with
  | .obj kvs => do
    let t ← jget kvs "timestamp"
    let ti ← pyInt t
    let v ← jget kvs "value"
    let x ← pyFloat v
    some ⟨ti, x⟩
  | _ => none

/-- MetricSample.from_loki_value, lines 53-75 of metric_sample.py:
split the fractional epoch-seconds value into whole and fractional
parts, scale each to nanoseconds, round the fractional part. -/
def MetricSample.from_loki_value (value : Json) : Option MetricSample :=
  match value with
  | .arr (t :: v :: _) => do
    let timestamp_seconds ← pyFloat t
    let x ← pyFloat v
    let whole_seconds : ℤ := ⌊timestamp_seconds⌋
    let fractional : ℚ := timestamp_seconds - (whole_seconds : ℚ)
    let timestamp_ns : ℤ :=
      whole_seconds * NANOSECONDS_PER_SECOND
        + pyRound (fractional * (NANOSECONDS_PER_SECOND : ℚ))
    some ⟨timestamp_ns, x⟩
  | _ => none

/-- From metric_series.py: samples sharing labels. -/
structure MetricSeries where
  labels : List (String × String)
  samples : List MetricSample
deriving DecidableEq

/-- MetricSeries.to_dict. -/
def MetricSeries.to_dict (s : MetricSeries) : Json :=
  .obj [("labels", labelsToJson s.labels),
        ("samples", .arr (s.samples.map MetricSample.to_dict))]

/-- MetricSeries.from_dict: data["labels"], data.get("samples", []). -/
def MetricSeries.from_dict (data : Json) : Option MetricSeries :=
  match data with
  | .obj kvs => do
    let lj ← jget kvs "labels"
    let labels ← jsonToLabels lj
    let sj ← match jget kvs "samples" with
      | none => some ([] : List Json)
      | some (.arr xs) => some xs
      | some _ => none
    let samples ← optMapList MetricSample.from_dict sj
    some ⟨labels, samples⟩
  | _ => none

/-- MetricSeries.from_loki_matrix: data.get("metric", {}),
data.get("values", []), one sample per values element. -/
def MetricSeries.from_loki_matrix (data : Json) : Option MetricSeries :=
  match data with
  | .obj kvs => do
    let labels ← match jget kvs "metric" with
      | none => some ([] : List (String × String))
      | some j => jsonToLabels j
    let vj ← match jget kvs "values" with
      | none => some ([] : List Json)
      | some (.arr xs) => some xs
      | some _ => none
    let samples ← optMapList MetricSample.from_loki_value vj
    some ⟨labels, samples⟩
  | _ => none

/-- MetricSeries.from_loki_vector: data.get("metric", {}),
data.get("value", []); one sample when the value is truthy, else none. -/
def MetricSeries.from_loki_vector (data : Json) : Option MetricSeries :=
  match data with
  | .obj kvs => do
    let labels ← match jget kvs "metric" with
      | none => some ([] : List (String × String))
      | some j => jsonToLabels j
    let value := match jget kvs "value" with
      | none => Json.arr []
      | some j => j
    if jsonTruthy value then do
      let s ← MetricSample.from_loki_value value
      some ⟨labels, [s]⟩
    else
      some ⟨labels, []⟩
  | _ => none

/-- From query_stats.py: execution statistics. Python annotates the
first two fields int and the third float but stores whatever the
dictionary holds; the model keeps all three as exact numbers. -/
structure QueryStats where
  bytes_processed : ℚ
  lines_processed : ℚ
  exec_time_seconds : ℚ
deriving DecidableEq

/-- QueryStats.to_dict. -/
def QueryStats.to_dict (s : QueryStats) : Json :=
  .obj [("bytes_processed", .num s.bytes_processed),
        ("lines_processed", .num s.lines_processed),
        ("exec_time_seconds", .num s.exec_time_seconds)]

/-- dict.get(key, default) returning a number (the only shape the model
admits for these fields). -/
def getNumD (kvs : List (String × Json)) (key : String) (d : ℚ) : Option ℚ :=
  match jget kvs key with
  | none => some d
  | some (.num q) => some q
  | some _ => none

/-- QueryStats.from_dict: data.get(key, 0) for each field. -/
def QueryStats.from_dict (data : Json) : Option QueryStats :=
  match data with
  | .obj kvs => do
    let b ← getNumD kvs "bytes_processed" 0
    let l ← getNumD kvs "lines_processed" 0
    let e ← getNumD kvs "exec_time_seconds" 0
    some ⟨b, l, e⟩
  | _ => none

/-- QueryStats.from_loki_stats: stats_data.get("summary", {}) then
summary.get of totalBytesProcessed / totalLinesProcessed / execTime,
defaulting to zero. -/
def QueryStats.from_loki_stats (stats_data : Json) : Option QueryStats :=
  match stats_data with
  | .obj kvs => do
    let summary ← match jget kvs "summary" with
      | none => some ([] : List (String × Json))
      | some (.obj skvs) => some skvs
      | some _ => none
    let b ← getNumD summary "totalBytesProcessed" 0
    let l ← getNumD summary "totalLinesProcessed" 0
    let e ← getNumD summary "execTime" 0
    some ⟨b, l, e⟩
  | _ => none

/-- From query_result.py: the uniform result of a query. -/
structure QueryResult where
  status : String
  streams : List LogStream
  stats : Option QueryStats
  result_type : String
  metric_series : List MetricSeries
deriving DecidableEq

/-- QueryResult.to_dict ("stats" is None when absent). -/
def QueryResult.to_dict (r : QueryResult) : Json :=
  .obj [("status", .str r.status),
        ("result_type", .str r.result_type),
        ("streams", .arr (r.streams.map LogStream.to_dict)),
        ("metric_series", .arr (r.metric_series.map MetricSeries.to_dict)),
        ("stats", match r.stats with | some s => s.to_dict | none => .null)]

/-- QueryResult.from_dict: data.get("streams", []),
data.get("metric_series", []), stats only when data.get("stats") is
truthy, data["status"], data.get("result_type", "streams"). -/
def QueryResult.from_dict (data : Json) : Option QueryResult :=
  match data with
  | .obj kvs => do
    let sj ← match jget kvs "streams" with
      | none => some ([] : List Json)
      | some (.arr xs) => some xs
      | some _ => none
    let streams ← optMapList LogStream.from_dict sj
    let mj ← match jget kvs "metric_series" with
      | none => some ([] : List Json)
      | some (.arr xs) => some xs
      | some _ => none
    let metric_series ← optMapList MetricSeries.from_dict mj
    let stats ← match jget kvs "stats" with
      | none => some (none : Option QueryStats)
      | some s =>
        if jsonTruthy s then (QueryStats.from_dict s).map some
        else some none
    let status ← match jget kvs "status" with
      | some (.str s) => some s
      | _ => none
    let result_type ← match jget kvs "result_type" with
      | none => some "streams"
      | some (.str s) => some s
      | some _ => none
    some ⟨status, streams, stats, result_type, metric_series⟩
  | _ => none

/-- response_data.get("status", "unknown") of from_loki_response: the
status string, verbatim, defaulting to "unknown" when absent. -/
def getStatusField (kvs : List (String × Json)) : Option String :=
  match jget kvs "status" with
  | none => some "unknown"
  | some (.str s) => some s
  | some _ => none

/-- response_data.get("data", {}) of from_loki_response. -/
def getDataField (kvs : List (String × Json)) : Option (List (String × Json)) :=
  match jget kvs "data" with
  | none => some []
  | some (.obj dkvs) => some dkvs
  | some _ => none

/-- data.get("resultType", "streams") of from_loki_response. -/
def getResultTypeField (dkvs : List (String × Json)) : Option String :=
  match jget dkvs "resultType" with
  | none => some "streams"
  | some (.str s) => some s
  | some _ => none

/-- data.get("result", []) of from_loki_response. -/
def getResultListField (dkvs : List (String × Json)) : Option (List Json) :=
  match jget dkvs "result" with
  | none => some []
  | some (.arr xs) => some xs
  | some _ => none

/-- data.get("stats") of from_loki_response, parsed only when truthy. -/
def getStatsField (dkvs : List (String × Json)) : Option (Option QueryStats) :=
  match jget dkvs "stats" with
  | none => some none
  | some s =>
    if jsonTruthy s then (QueryStats.from_loki_stats s).map some
    else some none

/-- QueryResult.from_loki_response, lines 70-114 of query_result.py:
dispatch on data.resultType (default "streams"), parse stats when
truthy, copy status verbatim (default "unknown"). -/
def QueryResult.from_loki_response (response_data : Json) : Option QueryResult :=
  match response_data with
  | .obj kvs => do
    let status ← getStatusField kvs
    let dkvs ← getDataField kvs
    let result_type ← getResultTypeField dkvs
    let result_list ← getResultListField dkvs
    let stats ← getStatsField dkvs
    if result_type = "matrix" then do
      let ms ← optMapList MetricSeries.from_loki_matrix result_list
      some ⟨status, [], stats, result_type, ms⟩
    else if result_type = "vector" then do
      let ms ← optMapList MetricSeries.from_loki_vector result_list
      some ⟨status, [], stats, result_type, ms⟩
    else do
      let ss ← optMapList LogStream.from_loki_stream result_list
      some ⟨status, ss, stats, result_type, []⟩
  | _ => none

/-- From client.py line 13: candidate application label names. -/
def APP_LABEL_NAMES : List String :=
  ["application", "app", "job", "service", "service_name", "logger"]

/-- From client.py line 14: candidate severity label names. -/
def SEVERITY_LABEL_NAMES : List String :=
  ["level", "severity", "log_level", "loglevel"]

/-- From client.py lines 31-37: the aggregation keyword list of
the metric-query classifier. -/
def metricPrefixes : List String :=
  ["count_over_time", "rate", "bytes_over_time", "bytes_rate",
   "sum", "avg", "min", "max", "stddev", "stdvar",
   "quantile_over_time", "first_over_time", "last_over_time",
   "absent_over_time", "rate_counter", "topk", "bottomk",
   "sort", "sort_desc", "label_replace", "label_join"]

/-- client.py lines 18-42, function called underscore-is-metric-query:
lowercase and trim, then test each keyword followed by "(" or " (". -/
def isMetricQuery (logql : String) : Bool :=
  let stripped := pyLower (pyStrip logql)
  metricPrefixes.any (fun p =>
    pyStartsWith stripped (p ++ "(") || pyStartsWith stripped (p ++ " ("))

/-- client.py line 67: the canonical ascending severity order. -/
def canonicalSeverity : List String :=
  ["trace", "debug", "info", "warn", "error", "fatal"]

/-- client.py lines 60-65: lowercase, trim and apply the two aliases. -/
def severityNormalize (s : String) : String :=
  let n := pyLower (pyStrip s)
  let n := if n = "warning" then "warn" else n
  if n = "critical" then "fatal" else n

/-- Python list.index: the index of the first occurrence, none when the
element is absent (Python raises ValueError). -/
def pyListIndex : List String → String → Option ℕ
  | [], _ => none
  | y :: ys, x => if x = y then some 0 else (pyListIndex ys x).map (· + 1)

/-- client.py lines 71-77: append each selected level followed by its
alias when it has one. -/
def expandSeverityAliases : List String → List String
  | [] => []
  | l :: ls =>
    (if l = "warn" then [l, "warning"]
     else if l = "fatal" then [l, "critical"]
     else [l]) ++ expandSeverityAliases ls

/-- client.py lines 45-79, the severity regex builder; none models the
ValueError raised on an unrecognized level. -/
def buildSeverityRegex (min_severity : String) : Option String :=
  let normalized := severityNormalize min_severity
  match pyListIndex canonicalSeverity normalized with
  | none => none
  | some idx =>
    some (joinSep "|" (expandSeverityAliases (canonicalSeverity.drop idx)))

/-- Python dict lookup on the application-label cache. -/
def lookupAssoc : List (String × String) → String → Option String
  | [], _ => none
  | kv :: rest, k => if kv.1 = k then some kv.2 else lookupAssoc rest k

/-- The for-loop of client.py lines 252-256: probe candidates in order,
returning the first whose values contain the app value, together with
the list of labels probed (one collaborator call each). -/
def probeAppLabels (oracle : String → List String) (app_value : String) :
    List String → Option String × List String
  | [] => (none, [])
  | l :: ls =>
    if listHas (oracle l) app_value then (some l, [l])
    else
      let r := probeAppLabels oracle app_value ls
      (r.1, l :: r.2)

/-- client.py lines 234-261, label discovery for an application value:
returns (result, updated cache, probed labels); none models the
ValueError raised when no candidate matches. -/
def find_app_label (oracle : String → List String)
    (cache : List (String × String)) (app_value : String) :
    Option String × List (String × String) × List String :=
  match lookupAssoc cache app_value with
  | some l => (some l, cache, [])
  | none =>
    match probeAppLabels oracle app_value APP_LABEL_NAMES with
    | (some l, ps) => (some l, (app_value, l) :: cache, ps)
    | (none, ps) => (none, cache, ps)

/-- The for-loop of client.py lines 275-279: probe severity label
candidates, returning the first with a non-empty value list and the
probed labels. -/
def probeSeverityLabels (oracle : String → List String) :
    List String → Option String × List String
  | [] => (none, [])
  | l :: ls =>
    if listNonempty (oracle l) then (some l, [l])
    else
      let r := probeSeverityLabels oracle ls
      (r.1, l :: r.2)

/-- client.py lines 263-281, severity label discovery: returns
(result, updated cache, probed labels); an absent label is not an
error and is not cached. -/
def find_severity_label (oracle : String → List String)
    (cache : Option String) : Option String × Option String × List String :=
  match cache with
  | some l => (some l, some l, [])
  | none =>
    match probeSeverityLabels oracle SEVERITY_LABEL_NAMES with
    | (some l, ps) => (some l, some l, ps)
    | (none, ps) => (none, none, ps)

/-- client.py lines 82-106, underscore-resolve-since: the lookback
window with priority minutes over hours over days, ending at now. -/
def resolve_since (now : ℤ) (since_minutes since_hours since_days : Option ℤ) :
    Option (ℤ × ℤ) :=
  match since_minutes with
  | some m => some (now - m * NANOSECONDS_PER_MINUTE, now)
  | none =>
    match since_hours with
    | some h => some (now - h * NANOSECONDS_PER_HOUR, now)
    | none =>
      match since_days with
      | some d => some (now - d * NANOSECONDS_PER_HOUR * 24, now)
      | none => none

/-- The HTTP request a query resolves to: either the instant endpoint or
the range endpoint with its window, limit and direction. -/
inductive LokiRequest where
  | instant (q : String) (limit : ℤ) : LokiRequest
  | range (q : String) (start finish : ℤ) (limit : ℤ) (direction : String) : LokiRequest
deriving DecidableEq

/-- client.py lines 332-353, the tail of query after the expression is
resolved: instant endpoint for a metric query with no explicit window,
otherwise the range endpoint over the resolved window (default 30-day
lookback) with direction backward. -/
def queryDispatch (now : ℤ) (logql : String) (limit : ℤ)
    (since_minutes since_hours since_days : Option ℤ) : LokiRequest :=
  let has_since := since_minutes.isSome || since_hours.isSome || since_days.isSome
  if isMetricQuery logql && !has_since then
    .instant logql limit
  else
    let time_range :=
      match resolve_since now since_minutes since_hours since_days with
      | some r => r
      | none => (now - 30 * 24 * NANOSECONDS_PER_HOUR, now)
    .range logql time_range.1 time_range.2 limit "backward"

/-- The mutable per-client caches of client.py lines 151-152. -/
structure ClientState where
  app_label_cache : List (String × String)
  severity_label_cache : Option String
deriving DecidableEq

/-- The failure kinds of LokiClient.query (each a ValueError in the
source, split here by raise site). -/
inductive QueryError where
  | invalidArgument (msg : String) : QueryError
  | labelNotFound (app_value : String) : QueryError
  | invalidSeverity (severity : String) : QueryError
deriving DecidableEq

/-- client.py lines 283-353, LokiClient.query: argument validation,
app-label resolution, optional severity filter (only when a severity
label is discovered), then endpoint dispatch. Returns the issued
request and the updated cache state. -/
def LokiClient.query (oracle : String → List String) (st : ClientState)
    (now : ℤ) (logql app severity : Option String) (limit : ℤ)
    (since_minutes since_hours since_days : Option ℤ) :
    Except QueryError (LokiRequest × ClientState) :=
  match logql, app with
  | some _, some _ => .error (.invalidArgument "Cannot combine logql with app")
  | none, none => .error (.invalidArgument "Must provide either logql or app")
  | some q, none =>
    .ok (queryDispatch now q limit since_minutes since_hours since_days, st)
  | none, some a =>
    match find_app_label oracle st.app_label_cache a with
    | (none, _, _) => .error (.labelNotFound a)
    | (some label_name, cache1, _) =>
      let selector := label_name ++ "=\"" ++ a ++ "\""
      match severity with
      | none =>
        .ok (queryDispatch now ("\x7b" ++ selector ++ "\x7d") limit
               since_minutes since_hours since_days,
             ⟨cache1, st.severity_label_cache⟩)
      | some sev =>
        let pr := find_severity_label oracle st.severity_label_cache
        match pr.1 with
        | none =>
          .ok (queryDispatch now ("\x7b" ++ selector ++ "\x7d") limit
                 since_minutes since_hours since_days,
               ⟨cache1, pr.2.1⟩)
        | some sev_label =>
          match buildSeverityRegex sev with
          | none => .error (.invalidSeverity sev)
          | some regex =>
            let selector2 := selector ++ ", " ++ sev_label ++ "=~\"" ++ regex ++ "\""
            .ok (queryDispatch now ("\x7b" ++ selector2 ++ "\x7d") limit
                   since_minutes since_hours since_days,
                 ⟨cache1, pr.2.1⟩)

/-- Stated from the spec (4.2 and the claim): the expected regex for
each canonical tier, enumerated with the alias placed immediately after
its canonical form. -/
def specSeverityRegex (t : String) : Option String :=
  if t = "trace" then some "trace|debug|info|warn|warning|error|fatal|critical"
  else if t = "debug" then some "debug|info|warn|warning|error|fatal|critical"
  else if t = "info" then some "info|warn|warning|error|fatal|critical"
  else if t = "warn" then some "warn|warning|error|fatal|critical"
  else if t = "error" then some "error|fatal|critical"
  else if t = "fatal" then some "fatal|critical"
  else none

/-- Stated from the spec (4.5 step 2 and the claim): the effective
lookback in nanoseconds, priority minutes over hours over days,
defaulting to a 30-day lookback. -/
def specWindowNs (since_minutes since_hours since_days : Option ℤ) : ℤ :=
  match since_minutes with
  | some m => m * NANOSECONDS_PER_MINUTE
  | none =>
    match since_hours with
    | some h => h * NANOSECONDS_PER_HOUR
    | none =>
      match since_days with
      | some d => d * 24 * NANOSECONDS_PER_HOUR
      | none => 30 * 24 * NANOSECONDS_PER_HOUR

section Theorems

attribute [local semireducible] Rat.mul Rat.sub Rat.add Rat.inv

/-- Mapping a serializer then parsing its inverse succeeds elementwise. -/
theorem optMapList_map_of_eq_some {α β : Type} (f : β → Option α) (g : α → β)
    (xs : List α) (h : ∀ x ∈ xs, f (g x) = some x) :
    optMapList f (xs.map g) = some xs := by
  induction xs with
  | nil => rfl
  | cons a as ih =>
    simp [optMapList, h a (List.mem_cons_self a as),
      ih (fun x hx => h x (List.mem_cons_of_mem a hx))]

/-- The Python int() of an integer-valued number is that integer. -/
theorem pyInt_num_intCast (t : ℤ) : pyInt (.num (t : ℚ)) = some t := by
  simp only [pyInt, pyTruncInt]
  split <;> simp

/-- Dispatch of the severity index computation against the enumerated
expected regexes, for an arbitrary normalized tier name. -/
theorem buildSeverityRegex_aux (n : String) :
    (match pyListIndex canonicalSeverity n with
     | none => none
     | some idx =>
       some (joinSep "|" (expandSeverityAliases (canonicalSeverity.drop idx)))) =
    specSeverityRegex n := by
  by_cases h1 : n = "trace"
  · subst h1; decide
  by_cases h2 : n = "debug"
  · subst h2; decide
  by_cases h3 : n = "info"
  · subst h3; decide
  by_cases h4 : n = "warn"
  · subst h4; decide
  by_cases h5 : n = "error"
  · subst h5; decide
  by_cases h6 : n = "fatal"
  · subst h6; decide
  simp [pyListIndex, canonicalSeverity, specSeverityRegex, h1, h2, h3, h4, h5, h6]

/-- C1: for every input whose normalized form (lowercased, trimmed,
aliases applied) is a canonical tier, buildSeverityRegex returns the
pipe-join of the tiers at or above that rank with each alias emitted
immediately after its canonical form; the two stated examples hold, and
every input that does not normalize to a canonical tier fails. -/
theorem c1_buildSeverityRegex_spec (s : String) :
    buildSeverityRegex s = specSeverityRegex (severityNormalize s) ∧
    buildSeverityRegex "warn" = some "warn|warning|error|fatal|critical" ∧
    buildSeverityRegex "critical" = some "fatal|critical" :=
  ⟨buildSeverityRegex_aux (severityNormalize s), by decide, by decide⟩

/-- C5: isMetricQuery is true exactly when the lowercased, trimmed
expression starts with a listed keyword immediately followed by an
opening parenthesis or a space and an opening parenthesis; whitespace-only
input is classified false. -/
theorem c5_isMetricQuery_spec (s : String) :
    (isMetricQuery s = true ↔ ∃ p ∈ metricPrefixes,
        pyStartsWith (pyLower (pyStrip s)) (p ++ "(") = true ∨
        pyStartsWith (pyLower (pyStrip s)) (p ++ " (") = true) ∧
    (pyStrip s = "" → isMetricQuery s = false) := by
  constructor
  · simp [isMetricQuery, List.any_eq_true, Bool.or_eq_true]
  · intro h
    simp only [isMetricQuery]
    rw [h]
    decide

/-- C5 witness: whitespace-only input is classified false. -/
theorem c5_isMetricQuery_witness :
    pyStrip "   " = "" ∧ isMetricQuery "   " = false :=
  ⟨by decide, (c5_isMetricQuery_spec "   ").2 (by decide)⟩

/-- C2: a matrix/vector sample timestamp is floor(t) * 10^9 plus the
rounded fractional part times 10^9, and the value string parses as a
float; the stated vector and matrix examples evaluate as claimed. -/
theorem c2_metric_sample_timestamp :
    (∀ (t v : Json) (rest : List Json) (ts x : ℚ),
      pyFloat t = some ts → pyFloat v = some x →
      MetricSample.from_loki_value (.arr (t :: v :: rest)) =
        some ⟨⌊ts⌋ * NANOSECONDS_PER_SECOND
                + pyRound ((ts - (⌊ts⌋ : ℚ)) * (NANOSECONDS_PER_SECOND : ℚ)), x⟩) ∧
    MetricSeries.from_loki_vector
      (.obj [("metric", .obj [("app", .str "x")]),
             ("value", .arr [.num (Rat.divInt 3408134401 2), .str "42"])]) =
      some ⟨[("app", "x")], [⟨1704067200500000000, 42⟩]⟩ ∧
    MetricSeries.from_loki_matrix
      (.obj [("metric", .obj [("app", .str "a")]),
             ("values", .arr [.arr [.num 1704067200, .str "150"],
                              .arr [.num 1704067260, .str "175"]])]) =
      some ⟨[("app", "a")], [⟨1704067200000000000, 150⟩,
                             ⟨1704067260000000000, 175⟩]⟩ := by
  refine ⟨?_, by decide, by decide⟩
  intro t v rest ts x ht hx
  simp [MetricSample.from_loki_value, ht, hx]

/-- C2 witness: the conversion formula applied at t = 3/2, value "42". -/
theorem c2_metric_sample_witness :
    pyFloat (.num (Rat.divInt 3 2)) = some (Rat.divInt 3 2) ∧
    pyFloat (.str "42") = some 42 ∧
    MetricSample.from_loki_value (.arr [.num (Rat.divInt 3 2), .str "42"]) =
      some ⟨⌊(Rat.divInt 3 2 : ℚ)⌋ * NANOSECONDS_PER_SECOND
              + pyRound ((Rat.divInt 3 2 - (⌊(Rat.divInt 3 2 : ℚ)⌋ : ℚ))
                  * (NANOSECONDS_PER_SECOND : ℚ)), 42⟩ :=
  ⟨by decide, by decide,
   c2_metric_sample_timestamp.1 (.num (Rat.divInt 3 2)) (.str "42") []
     (Rat.divInt 3 2) 42 (by decide) (by decide)⟩

/-- A list whose elements all satisfy the predicate is its own
takeWhile. -/
theorem takeWhile_eq_self_of_all {α : Type} {p : α → Bool} {ls : List α}
    (h : ∀ x ∈ ls, p x = true) : ls.takeWhile p = ls := by
  induction ls with
  | nil => rfl
  | cons a as ih =>
    simp [List.takeWhile_cons, h a (List.mem_cons_self a as),
      ih (fun x hx => h x (List.mem_cons_of_mem a hx))]

/-- The probe loop returns the first candidate whose values contain the
app value, having probed exactly the failing front of the list plus the
hit. -/
theorem probeAppLabels_spec (oracle : String → List String) (v : String)
    (ls : List String) :
    probeAppLabels oracle v ls =
      (ls.find? (fun l => listHas (oracle l) v),
       ls.takeWhile (fun l => !listHas (oracle l) v)
         ++ (ls.find? (fun l => listHas (oracle l) v)).toList) := by
  induction ls with
  | nil => rfl
  | cons a as ih =>
    by_cases h : listHas (oracle a) v
    · simp [probeAppLabels, List.find?_cons, List.takeWhile_cons, h]
    · simp [probeAppLabels, List.find?_cons, List.takeWhile_cons, h, ih]

/-- C4: an uncached app value is probed against the fixed candidate list
in order, one collaborator call per candidate up to and including the
first hit; the first matching label is returned and cached; exhausting
the list fails; a cached value is answered with no collaborator call, so
a second call after a success issues none. -/
theorem c4_find_app_label_spec (oracle : String → List String)
    (cache : List (String × String)) (v : String) :
    (∀ l, lookupAssoc cache v = some l →
        find_app_label oracle cache v = (some l, cache, [])) ∧
    (lookupAssoc cache v = none →
      (find_app_label oracle cache v).1
          = APP_LABEL_NAMES.find? (fun l => listHas (oracle l) v) ∧
      (∀ l, APP_LABEL_NAMES.find? (fun l => listHas (oracle l) v) = some l →
        find_app_label oracle cache v =
          (some l, (v, l) :: cache,
            APP_LABEL_NAMES.takeWhile (fun l => !listHas (oracle l) v) ++ [l]) ∧
        find_app_label oracle ((v, l) :: cache) v = (some l, (v, l) :: cache, [])) ∧
      (APP_LABEL_NAMES.find? (fun l => listHas (oracle l) v) = none →
        find_app_label oracle cache v = (none, cache, APP_LABEL_NAMES))) := by
  refine ⟨fun l h => by simp [find_app_label, h], fun hnone => ⟨?_, ?_, ?_⟩⟩
  · simp only [find_app_label, hnone, probeAppLabels_spec]
    cases hf : APP_LABEL_NAMES.find? (fun l => listHas (oracle l) v) <;> simp [hf]
  · intro l hl
    constructor
    · simp [find_app_label, hnone, probeAppLabels_spec, hl]
    · simp [find_app_label, lookupAssoc]
  · intro hf
    simp only [find_app_label, hnone, probeAppLabels_spec, hf]
    rw [takeWhile_eq_self_of_all]
    · simp
    · intro x hx
      have h2 := List.find?_eq_none.mp hf x hx
      simp only [Bool.not_eq_true] at h2
      simp [h2]

/-- C4 witness: with values ["myapp"] only under "job", the probe
returns "job", caches it, and a second call issues no probes. -/
theorem c4_find_app_label_witness :
    lookupAssoc [] "myapp" = none ∧
    APP_LABEL_NAMES.find?
        (fun l => listHas ((fun l => if l = "job" then ["myapp"] else []) l) "myapp")
      = some "job" ∧
    find_app_label (fun l => if l = "job" then ["myapp"] else []) [] "myapp" =
      (some "job", [("myapp", "job")], ["application", "app", "job"]) ∧
    find_app_label (fun l => if l = "job" then ["myapp"] else [])
        [("myapp", "job")] "myapp" =
      (some "job", [("myapp", "job")], []) := by
  refine ⟨rfl, by decide, ?_⟩
  have h := ((c4_find_app_label_spec
      (fun l => if l = "job" then ["myapp"] else []) [] "myapp").2 rfl).2.1
      "job" (by decide)
  exact ⟨h.1, h.2⟩

/-- C10: a failing lookup leaves the application-label cache unchanged;
a successful lookup leaves the value bound to the returned label and
every other key unchanged. -/
theorem c10_find_app_label_cache (oracle : String → List String)
    (cache : List (String × String)) (v : String) :
    ((find_app_label oracle cache v).1 = none →
        (find_app_label oracle cache v).2.1 = cache) ∧
    (∀ l, (find_app_label oracle cache v).1 = some l →
        lookupAssoc (find_app_label oracle cache v).2.1 v = some l ∧
        ∀ w, w ≠ v →
          lookupAssoc (find_app_label oracle cache v).2.1 w = lookupAssoc cache w) := by
  cases hc : lookupAssoc cache v with
  | some l0 =>
    have hres : find_app_label oracle cache v = (some l0, cache, []) := by
      simp [find_app_label, hc]
    rw [hres]
    refine ⟨fun h => by simp at h, fun l hl => ?_⟩
    have hll : l0 = l := by simpa using hl
    subst hll
    exact ⟨hc, fun w _ => rfl⟩
  | none =>
    cases hp : probeAppLabels oracle v APP_LABEL_NAMES with
    | mk r ps =>
      cases r with
      | none =>
        have hres : find_app_label oracle cache v = (none, cache, ps) := by
          simp [find_app_label, hc, hp]
        rw [hres]
        exact ⟨fun _ => rfl, fun l hl => by simp at hl⟩
      | some l0 =>
        have hres : find_app_label oracle cache v = (some l0, (v, l0) :: cache, ps) := by
          simp [find_app_label, hc, hp]
        rw [hres]
        refine ⟨fun h => by simp at h, fun l hl => ?_⟩
        have hll : l0 = l := by simpa using hl
        subst hll
        refine ⟨by simp [lookupAssoc], fun w hw => ?_⟩
        simp only [lookupAssoc]
        rw [if_neg (fun h => hw h.symm)]

/-- C10 witness: failure and success cache behaviour at concrete inputs. -/
theorem c10_find_app_label_witness :
    (find_app_label (fun _ => []) [("other", "job")] "myapp").1 = none ∧
    (find_app_label (fun _ => []) [("other", "job")] "myapp").2.1
      = [("other", "job")] ∧
    (find_app_label (fun l => if l = "app" then ["myapp"] else [])
        [("other", "job")] "myapp").1 = some "app" ∧
    lookupAssoc (find_app_label (fun l => if l = "app" then ["myapp"] else [])
        [("other", "job")] "myapp").2.1 "myapp" = some "app" ∧
    lookupAssoc (find_app_label (fun l => if l = "app" then ["myapp"] else [])
        [("other", "job")] "myapp").2.1 "other" = lookupAssoc [("other", "job")] "other" := by
  refine ⟨by decide,
    (c10_find_app_label_cache (fun _ => []) [("other", "job")] "myapp").1 (by decide),
    by decide, ?_, ?_⟩
  · exact ((c10_find_app_label_cache (fun l => if l = "app" then ["myapp"] else [])
      [("other", "job")] "myapp").2 "app" (by decide)).1
  · exact ((c10_find_app_label_cache (fun l => if l = "app" then ["myapp"] else [])
      [("other", "job")] "myapp").2 "app" (by decide)).2 "other" (by decide)

/-- The severity probe loop returns the first candidate with a non-empty
value list, having probed exactly the empty-valued front plus the hit. -/
theorem probeSeverityLabels_spec (oracle : String → List String)
    (ls : List String) :
    probeSeverityLabels oracle ls =
      (ls.find? (fun l => listNonempty (oracle l)),
       ls.takeWhile (fun l => !listNonempty (oracle l))
         ++ (ls.find? (fun l => listNonempty (oracle l))).toList) := by
  induction ls with
  | nil => rfl
  | cons a as ih =>
    by_cases h : listNonempty (oracle a)
    · simp [probeSeverityLabels, List.find?_cons, List.takeWhile_cons, h]
    · simp [probeSeverityLabels, List.find?_cons, List.takeWhile_cons, h, ih]

/-- C8: the severity label is the first candidate with non-empty values,
probed in priority order; a hit is cached and answered thereafter with
no collaborator calls; a miss returns the absent result, caches nothing,
and a subsequent call re-probes the full candidate list. -/
theorem c8_find_severity_label_spec (oracle : String → List String) :
    (∀ c, find_severity_label oracle (some c) = (some c, some c, [])) ∧
    ((find_severity_label oracle none).1
        = SEVERITY_LABEL_NAMES.find? (fun l => listNonempty (oracle l))) ∧
    (∀ l, SEVERITY_LABEL_NAMES.find? (fun l => listNonempty (oracle l)) = some l →
      find_severity_label oracle none =
        (some l, some l,
         SEVERITY_LABEL_NAMES.takeWhile (fun l => !listNonempty (oracle l)) ++ [l])) ∧
    (SEVERITY_LABEL_NAMES.find? (fun l => listNonempty (oracle l)) = none →
      find_severity_label oracle none = (none, none, SEVERITY_LABEL_NAMES) ∧
      (find_severity_label oracle (find_severity_label oracle none).2.1).2.2
        = SEVERITY_LABEL_NAMES) := by
  refine ⟨fun c => rfl, ?_, ?_, ?_⟩
  · simp only [find_severity_label, probeSeverityLabels_spec]
    cases hf : SEVERITY_LABEL_NAMES.find? (fun l => listNonempty (oracle l)) <;> simp [hf]
  · intro l hl
    simp [find_severity_label, probeSeverityLabels_spec, hl]
  · intro hf
    have hall : ∀ x ∈ SEVERITY_LABEL_NAMES, (!listNonempty (oracle x)) = true := by
      intro x hx
      have h2 := List.find?_eq_none.mp hf x hx
      simp only [Bool.not_eq_true] at h2
      simp [h2]
    have hmain : find_severity_label oracle none = (none, none, SEVERITY_LABEL_NAMES) := by
      simp only [find_severity_label, probeSeverityLabels_spec, hf]
      rw [takeWhile_eq_self_of_all hall]
      simp
    refine ⟨hmain, ?_⟩
    rw [hmain]
    show (find_severity_label oracle none).2.2 = SEVERITY_LABEL_NAMES
    rw [hmain]

/-- C8 witness: a hit under "severity" is returned and cached; with no
values anywhere the absent result is returned, nothing is cached, and
the next call probes the full list again. -/
theorem c8_find_severity_label_witness :
    find_severity_label (fun l => if l = "severity" then ["error"] else []) none =
      (some "severity", some "severity", ["level", "severity"]) ∧
    find_severity_label (fun _ => ([] : List String)) none = (none, none, SEVERITY_LABEL_NAMES) ∧
    (find_severity_label (fun _ => ([] : List String))
        (find_severity_label (fun _ => ([] : List String)) none).2.1).2.2
      = SEVERITY_LABEL_NAMES := by
  refine ⟨?_, ?_, ?_⟩
  · exact (c8_find_severity_label_spec
      (fun l => if l = "severity" then ["error"] else [])).2.2.1 "severity" (by decide)
  · exact ((c8_find_severity_label_spec (fun _ => ([] : List String))).2.2.2 (by decide)).1
  · exact ((c8_find_severity_label_spec (fun _ => ([] : List String))).2.2.2 (by decide)).2

/-- The dispatch tail of query: instant exactly for a metric query with
no explicit window, otherwise range over the spec window ending at now. -/
theorem queryDispatch_eq (now : ℤ) (q : String) (limit : ℤ)
    (m h d : Option ℤ) :
    queryDispatch now q limit m h d =
      if isMetricQuery q = true ∧ m = none ∧ h = none ∧ d = none
      then .instant q limit
      else .range q (now - specWindowNs m h d) now limit "backward" := by
  cases m with
  | some mv => simp [queryDispatch, resolve_since, specWindowNs]
  | none =>
    cases h with
    | some hv => simp [queryDispatch, resolve_since, specWindowNs]
    | none =>
      cases d with
      | some dv =>
        simp only [queryDispatch, resolve_since, specWindowNs, Option.isSome_none,
          Option.isSome_some, Bool.or_true, Bool.or_false, Bool.not_true,
          Bool.and_false, Bool.false_eq_true, if_false]
        rw [if_neg (by simp)]
        have : dv * NANOSECONDS_PER_HOUR * 24 = dv * 24 * NANOSECONDS_PER_HOUR := by
          ring
        rw [this]
      | none =>
        by_cases hq : isMetricQuery q <;>
          simp [queryDispatch, resolve_since, specWindowNs, hq]

/-- Either the dispatch produced an instant request (metric query, no
window) or a range request over the spec window. -/
theorem dispatch_shape (now : ℤ) (q : String) (limit : ℤ) (m h d : Option ℤ) :
    (isMetricQuery q = true ∧ m = none ∧ h = none ∧ d = none ∧
      queryDispatch now q limit m h d = .instant q limit) ∨
    (queryDispatch now q limit m h d
      = .range q (now - specWindowNs m h d) now limit "backward") := by
  rw [queryDispatch_eq]
  by_cases hc : isMetricQuery q = true ∧ m = none ∧ h = none ∧ d = none
  · exact Or.inl ⟨hc.1, hc.2.1, hc.2.2.1, hc.2.2.2, if_pos hc⟩
  · exact Or.inr (if_neg hc)

/-- Existential form of dispatch_shape against a produced request. -/
theorem dispatch_shape_or (now : ℤ) (q : String) (limit : ℤ)
    (m h d : Option ℤ) (req : LokiRequest)
    (hq : queryDispatch now q limit m h d = req) :
    (∃ q2, isMetricQuery q2 = true ∧ m = none ∧ h = none ∧ d = none ∧
        req = .instant q2 limit) ∨
    (∃ q2, req = .range q2 (now - specWindowNs m h d) now limit "backward") := by
  subst hq
  rcases dispatch_shape now q limit m h d with ⟨h1, h2, h3, h4, h5⟩ | h5
  · exact Or.inl ⟨q, h1, h2, h3, h4, h5⟩
  · exact Or.inr ⟨q, h5⟩

/-- C3: the window has priority minutes over hours over days ending at
now, defaulting to a 30-day lookback; a metric query with no explicit
window goes to the instant endpoint, every other call goes to the range
endpoint with the requested limit and direction backward (an explicit
window forces the range path even for metric queries). -/
theorem c3_query_time_window (oracle : String → List String) (st : ClientState)
    (now : ℤ) (lq app severity : Option String) (limit : ℤ)
    (m h d : Option ℤ) :
    (∀ q, lq = some q → app = none →
      LokiClient.query oracle st now lq app severity limit m h d =
        .ok (if isMetricQuery q = true ∧ m = none ∧ h = none ∧ d = none
             then .instant q limit
             else .range q (now - specWindowNs m h d) now limit "backward", st)) ∧
    (∀ req st2,
      LokiClient.query oracle st now lq app severity limit m h d = .ok (req, st2) →
      (∃ q, isMetricQuery q = true ∧ m = none ∧ h = none ∧ d = none ∧
          req = .instant q limit) ∨
      (∃ q, req = .range q (now - specWindowNs m h d) now limit "backward")) := by
  constructor
  · rintro q rfl rfl
    simp [LokiClient.query, queryDispatch_eq]
  · intro req st2 hok
    cases lq with
    | some q =>
      cases app with
      | some a => simp [LokiClient.query] at hok
      | none =>
        simp only [LokiClient.query, Except.ok.injEq, Prod.mk.injEq] at hok
        exact dispatch_shape_or now q limit m h d req hok.1
    | none =>
      cases app with
      | none => simp [LokiClient.query] at hok
      | some a =>
        rcases hf : find_app_label oracle st.app_label_cache a with ⟨r, c1, ps⟩
        cases r with
        | none => simp [LokiClient.query, hf] at hok
        | some label =>
          cases severity with
          | none =>
            simp only [LokiClient.query, hf, Except.ok.injEq, Prod.mk.injEq] at hok
            exact dispatch_shape_or now _ limit m h d req hok.1
          | some sv =>
            cases hsl : (find_severity_label oracle st.severity_label_cache).1 with
            | none =>
              simp only [LokiClient.query, hf, hsl, Except.ok.injEq,
                Prod.mk.injEq] at hok
              exact dispatch_shape_or now _ limit m h d req hok.1
            | some sev_label =>
              cases hbr : buildSeverityRegex sv with
              | none => simp [LokiClient.query, hf, hsl, hbr] at hok
              | some regex =>
                simp only [LokiClient.query, hf, hsl, hbr, Except.ok.injEq,
                  Prod.mk.injEq] at hok
                exact dispatch_shape_or now _ limit m h d req hok.1

/-- C3 witness: a plain selector with no time parameters issues a range
request over the default 30-day window with direction backward. -/
theorem c3_query_time_window_witness :
    LokiClient.query (fun _ => ([] : List String)) ⟨[], none⟩ 0 (some "sel")
        none none 50 none none none =
      .ok (.range "sel" (0 - specWindowNs none none none) 0 50 "backward",
           ⟨[], none⟩) := by
  have hq := (c3_query_time_window (fun _ => ([] : List String)) ⟨[], none⟩ 0
      (some "sel") none none 50 none none none).1 "sel" rfl rfl
  rw [hq, if_neg]
  intro hc
  exact absurd hc.1 (by decide)

/-- C6 counterexample: with an unrecognized severity but no discoverable
severity label, query succeeds instead of failing, refuting the claim's
"regardless of whether a severity label is discovered". -/
theorem c6_counterexample :
    LokiClient.query (fun l => if l = "app" then ["myapp"] else []) ⟨[], none⟩ 0
        none (some "myapp") (some "bogus") 100 none none none =
      .ok (.range "\x7bapp=\"myapp\"\x7d" (0 - 30 * 24 * NANOSECONDS_PER_HOUR) 0
             100 "backward",
           ⟨[("myapp", "app")], none⟩) := rfl

/-- C6 amended: when the app label resolves and a severity label is
discovered, an unrecognized severity fails with the invalid-severity
error; when no severity label is discovered the unrecognized severity is
silently ignored and the query succeeds. -/
theorem c6_amended_invalid_severity (oracle : String → List String)
    (st : ClientState) (now : ℤ) (a sv : String) (limit : ℤ)
    (m h d : Option ℤ) (lbl : String)
    (happ : (find_app_label oracle st.app_label_cache a).1 = some lbl)
    (hbad : buildSeverityRegex sv = none) :
    ((∃ sl, (find_severity_label oracle st.severity_label_cache).1 = some sl) →
      LokiClient.query oracle st now none (some a) (some sv) limit m h d =
        .error (.invalidSeverity sv)) ∧
    ((find_severity_label oracle st.severity_label_cache).1 = none →
      ∃ req st2,
        LokiClient.query oracle st now none (some a) (some sv) limit m h d =
          .ok (req, st2)) := by
  rcases hf : find_app_label oracle st.app_label_cache a with ⟨r, c1, ps⟩
  rw [hf] at happ
  simp only at happ
  subst happ
  constructor
  · rintro ⟨sl, hsl⟩
    simp [LokiClient.query, hf, hsl, hbad]
  · intro hnone
    simp only [LokiClient.query, hf, hnone]
    exact ⟨_, _, rfl⟩

/-- C6 witness for the amended claim: both branches at concrete inputs. -/
theorem c6_amended_witness :
    (find_app_label
        (fun l => if l = "app" then ["myapp"]
                  else if l = "level" then ["info"] else []) [] "myapp").1
      = some "app" ∧
    buildSeverityRegex "bogus" = none ∧
    (find_severity_label
        (fun l => if l = "app" then ["myapp"]
                  else if l = "level" then ["info"] else []) none).1
      = some "level" ∧
    LokiClient.query
        (fun l => if l = "app" then ["myapp"]
                  else if l = "level" then ["info"] else [])
        ⟨[], none⟩ 0 none (some "myapp") (some "bogus") 100 none none none =
      .error (.invalidSeverity "bogus") := by
  refine ⟨by decide, by decide, by decide, ?_⟩
  exact (c6_amended_invalid_severity
      (fun l => if l = "app" then ["myapp"]
                else if l = "level" then ["info"] else [])
      ⟨[], none⟩ 0 "myapp" "bogus" 100 none none none "app"
      (by decide) (by decide)).1 ⟨"level", by decide⟩

/-- LogEntry serialization round-trips. -/
theorem LogEntry_from_to_dict (e : LogEntry) :
    LogEntry.from_dict e.to_dict = some e := by
  simp [LogEntry.from_dict, LogEntry.to_dict, jget, pyInt_num_intCast]

/-- MetricSample serialization round-trips. -/
theorem MetricSample_from_to_dict (s : MetricSample) :
    MetricSample.from_dict s.to_dict = some s := by
  simp [MetricSample.from_dict, MetricSample.to_dict, jget, pyInt_num_intCast,
    pyFloat]

/-- QueryStats serialization round-trips. -/
theorem QueryStats_from_to_dict (s : QueryStats) :
    QueryStats.from_dict s.to_dict = some s := by
  simp [QueryStats.from_dict, QueryStats.to_dict, jget, getNumD]

/-- Label maps round-trip through their JSON object form. -/
theorem jsonToLabels_labelsToJson (l : List (String × String)) :
    jsonToLabels (labelsToJson l) = some l := by
  simp only [jsonToLabels, labelsToJson]
  exact optMapList_map_of_eq_some _ _ l (fun x hx => rfl)

/-- LogStream serialization round-trips. -/
theorem LogStream_from_to_dict (s : LogStream) :
    LogStream.from_dict s.to_dict = some s := by
  simp [LogStream.from_dict, LogStream.to_dict, jget, jsonToLabels_labelsToJson,
    optMapList_map_of_eq_some LogEntry.from_dict LogEntry.to_dict s.entries
      (fun e _ => LogEntry_from_to_dict e)]

/-- MetricSeries serialization round-trips. -/
theorem MetricSeries_from_to_dict (s : MetricSeries) :
    MetricSeries.from_dict s.to_dict = some s := by
  simp [MetricSeries.from_dict, MetricSeries.to_dict, jget,
    jsonToLabels_labelsToJson,
    optMapList_map_of_eq_some MetricSample.from_dict MetricSample.to_dict s.samples
      (fun e _ => MetricSample_from_to_dict e)]

/-- C9: every constructed QueryResult, with or without stats,
deserializes from its own dictionary form to an equal value. -/
theorem c9_query_result_roundtrip (r : QueryResult) :
    QueryResult.from_dict r.to_dict = some r := by
  cases hs : r.stats with
  | none =>
    simp [QueryResult.from_dict, QueryResult.to_dict, jget, hs, jsonTruthy,
      optMapList_map_of_eq_some LogStream.from_dict LogStream.to_dict r.streams
        (fun x _ => LogStream_from_to_dict x),
      optMapList_map_of_eq_some MetricSeries.from_dict MetricSeries.to_dict
        r.metric_series (fun x _ => MetricSeries_from_to_dict x)]
    rw [← hs]
  | some qs =>
    have h1 : jsonTruthy qs.to_dict = true := by
      simp [QueryStats.to_dict, jsonTruthy]
    simp [QueryResult.from_dict, QueryResult.to_dict, jget, hs, h1,
      QueryStats_from_to_dict qs,
      optMapList_map_of_eq_some LogStream.from_dict LogStream.to_dict r.streams
        (fun x _ => LogStream_from_to_dict x),
      optMapList_map_of_eq_some MetricSeries.from_dict MetricSeries.to_dict
        r.metric_series (fun x _ => MetricSeries_from_to_dict x)]
    rw [← hs]

/-- C7: a matrix or vector result has empty streams; every other
resultType (absent defaults to "streams") has empty metric series and
its streams come from the streams-parsing path; status is copied
verbatim, defaulting to "unknown" when absent. -/
theorem c7_result_type_invariant (j : Json) (r : QueryResult)
    (hp : QueryResult.from_loki_response j = some r) :
    ((r.result_type = "matrix" ∨ r.result_type = "vector") → r.streams = []) ∧
    (r.result_type ≠ "matrix" → r.result_type ≠ "vector" →
      r.metric_series = [] ∧
      ∃ xs, optMapList LogStream.from_loki_stream xs = some r.streams) ∧
    (∃ kvs, j = .obj kvs ∧
      (jget kvs "status" = some (.str r.status) ∨
       (jget kvs "status" = none ∧ r.status = "unknown"))) ∧
    (∀ kvs dkvs, j = .obj kvs → jget kvs "data" = some (.obj dkvs) →
      jget dkvs "resultType" = none → r.result_type = "streams") := by
  cases j with
  | null => simp [QueryResult.from_loki_response] at hp
  | bool b => simp [QueryResult.from_loki_response] at hp
  | num q => simp [QueryResult.from_loki_response] at hp
  | str s => simp [QueryResult.from_loki_response] at hp
  | arr xs => simp [QueryResult.from_loki_response] at hp
  | obj kvs =>
    simp only [QueryResult.from_loki_response, Option.bind_eq_bind] at hp
    rw [Option.bind_eq_some] at hp
    obtain ⟨status, hst, hp⟩ := hp
    rw [Option.bind_eq_some] at hp
    obtain ⟨dkvs, hdk, hp⟩ := hp
    rw [Option.bind_eq_some] at hp
    obtain ⟨rt, hrt, hp⟩ := hp
    rw [Option.bind_eq_some] at hp
    obtain ⟨rl, hrl, hp⟩ := hp
    rw [Option.bind_eq_some] at hp
    obtain ⟨stats, hstats, hp⟩ := hp
    have fact_status : jget kvs "status" = some (.str status) ∨
        (jget kvs "status" = none ∧ status = "unknown") := by
      simp only [getStatusField] at hst
      cases hj : jget kvs "status" with
      | none =>
        simp only [hj] at hst
        simp only [Option.some.injEq] at hst
        exact Or.inr ⟨rfl, hst.symm⟩
      | some sj =>
        simp only [hj] at hst
        cases sj with
        | str s =>
          simp only [Option.some.injEq] at hst
          left
          rw [hst]
        | null => simp at hst
        | bool b => simp at hst
        | num q => simp at hst
        | arr xs => simp at hst
        | obj o => simp at hst
    have fact_rt : ∀ dkvs2, jget kvs "data" = some (.obj dkvs2) →
        jget dkvs2 "resultType" = none → rt = "streams" := by
      intro d2 hd2 habs
      simp only [getDataField, hd2, Option.some.injEq] at hdk
      subst hdk
      simp only [getResultTypeField, habs, Option.some.injEq] at hrt
      exact hrt.symm
    by_cases hm : rt = "matrix"
    · subst hm
      rw [if_pos rfl] at hp
      rw [Option.bind_eq_some] at hp
      obtain ⟨ms, hms, hp⟩ := hp
      simp only [Option.some.injEq] at hp
      subst hp
      refine ⟨fun _ => rfl, ?_, ⟨kvs, rfl, fact_status⟩, ?_⟩
      · intro h1 _
        exact absurd rfl h1
      · intro kvs2 dkvs2 hobj hdata habs
        injection hobj with hk
        subst hk
        exact fact_rt dkvs2 hdata habs
    · rw [if_neg hm] at hp
      by_cases hv : rt = "vector"
      · subst hv
        rw [if_pos rfl] at hp
        rw [Option.bind_eq_some] at hp
        obtain ⟨ms, hms, hp⟩ := hp
        simp only [Option.some.injEq] at hp
        subst hp
        refine ⟨fun _ => rfl, ?_, ⟨kvs, rfl, fact_status⟩, ?_⟩
        · intro _ h2
          exact absurd rfl h2
        · intro kvs2 dkvs2 hobj hdata habs
          injection hobj with hk
          subst hk
          exact fact_rt dkvs2 hdata habs
      · rw [if_neg hv] at hp
        rw [Option.bind_eq_some] at hp
        obtain ⟨ss, hss, hp⟩ := hp
        simp only [Option.some.injEq] at hp
        subst hp
        refine ⟨?_, ?_, ⟨kvs, rfl, fact_status⟩, ?_⟩
        · rintro (h | h)
          · exact absurd h hm
          · exact absurd h hv
        · intro _ _
          exact ⟨rfl, ⟨rl, hss⟩⟩
        · intro kvs2 dkvs2 hobj hdata habs
          injection hobj with hk
          subst hk
          exact fact_rt dkvs2 hdata habs

/-- C7 witness: a vector response has empty streams; a streams response
with an unrecognized resultType has empty metric series; status and
resultType defaults apply. -/
theorem c7_result_type_invariant_witness :
    QueryResult.from_loki_response
        (.obj [("status", .str "success"),
               ("data", .obj [("resultType", .str "vector"), ("result", .arr [])])])
      = some ⟨"success", [], none, "vector", []⟩ ∧
    (QueryResult.from_loki_response
        (.obj [("status", .str "success"),
               ("data", .obj [("resultType", .str "vector"), ("result", .arr [])])])
      = some ⟨"success", [], none, "vector", []⟩ →
        (⟨"success", [], none, "vector", []⟩ : QueryResult).streams = []) := by
  refine ⟨by decide, ?_⟩
  intro hp
  exact (c7_result_type_invariant _ _ hp).1 (Or.inr rfl)

end Theorems

end LokiReader
